import Mathlib

/-!
Verification of the `Game` data model of `src/client/src/app/game/game.models.ts`.

The source is a TypeScript class that wraps an untyped server payload.  We
embed the dynamic values a payload field can hold as the inductive `JVal`;
a possibly-absent field (JavaScript `undefined`) is `Option JVal`.  The host
environment's `Date` constructor (ECMAScript standard date parsing) is not
code of this repository, so the embedding takes it as an explicit function
parameter `newDate : Option JVal → JSDate`; theorems about the timestamp
fields assume the documented ECMAScript facts about it as hypotheses
(e.g. `new Date(undefined)` yields an Invalid Date).
-/

/-- A JavaScript runtime value, as far as the payload fields need:
strings, numbers (modelled as integers; no claim depends on float
behaviour), booleans, arrays and plain objects. -/
inductive JVal where
  | str : String → JVal
  | num : Int → JVal
  | bool : Bool → JVal
  | arr : List JVal → JVal
  | obj : List (String × JVal) → JVal
deriving Repr

/-- A JavaScript `Date` object: either a valid timestamp (milliseconds
since the epoch) or the Invalid Date sentinel (time value `NaN`). -/
inductive JSDate where
  | valid : Int → JSDate
  | invalid : JSDate
deriving DecidableEq, Repr

/-- `enum GameStatus` from `game.models.ts`, lines 2-7: a closed
enumeration of lifecycle states. -/
inductive GameStatus where
  | NEW
  | ONGOING
  | FINISHED
  | ABANDONED
deriving DecidableEq, Repr

/-- The string value each `GameStatus` member carries in the source
(`NEW = 'new'`, `ONGOING = 'ongoing'`, `FINISHED = 'finished'`,
`ABANDONED = 'abandoned'`). -/
def GameStatus.serialized : GameStatus → String
  | .NEW => "new"
  | .ONGOING => "ongoing"
  | .FINISHED => "finished"
  | .ABANDONED => "abandoned"

/-- The raw payload `info` handed to the `Game` constructor: a
JavaScript object read through the eight property names the constructor
accesses.  A property that is missing on the object reads as
`undefined`, i.e. `none`. -/
structure Payload where
  id : Option JVal
  name : Option JVal
  status : Option JVal
  n_players : Option JVal
  created_on : Option JVal
  last_active : Option JVal
  rounds : Option JVal
  scoreboard : Option JVal
deriving Repr

/-- `class Game` from `game.models.ts`, lines 10-35: the eight fields the
constructor assigns.  TypeScript's field type annotations are not
enforced at runtime, so every non-date field holds whatever dynamic
value the payload supplied. -/
structure Game where
  id : Option JVal
  name : Option JVal
  status : Option JVal
  nPlayers : Option JVal
  createdOn : JSDate
  lastActive : JSDate
  rounds : Option JVal
  scoreboard : Option JVal
deriving Repr

/-- JavaScript strict equality `v === s` where the right operand is a
string literal: true exactly when `v` is a string with the same
characters.  For any operand of a different runtime type (number,
boolean, object, `undefined`) strict equality with a string is false. -/
def strictEqStr (v : Option JVal) (s : String) : Bool :=
  match v with
  | some (.str t) => t == s
  | _ => false

/-- The `Game` constructor (`game.models.ts`, lines 21-30): copies
`id`, `name`, `status`, remaps `n_players` to `nPlayers`, applies the
host `Date` constructor to `created_on` and `last_active`, and copies
`rounds` and `scoreboard`.  It performs no validation and has no
failure path: every property access on an object and every `new Date`
call succeeds, which the embedding reflects by being a total
function. -/
def Game.ofPayload (newDate : Option JVal → JSDate) (info : Payload) : Game :=
  ⟨info.id, info.name, info.status, info.n_players,
   newDate info.created_on, newDate info.last_active,
   info.rounds, info.scoreboard⟩

/-- `isPlayable()` (`game.models.ts`, lines 32-34):
`return this.status === GameStatus.NEW;`. -/
def Game.isPlayable (g : Game) : Bool :=
  strictEqStr g.status (GameStatus.serialized GameStatus.NEW)

/-- State-passing translation of the `isPlayable()` method: a method
call receives `this` and, since the body contains no assignment, hands
the receiver back unchanged next to the computed boolean. -/
def Game.isPlayableSt (g : Game) : Bool × Game :=
  (strictEqStr g.status (GameStatus.serialized GameStatus.NEW), g)

/-- Whether a field value is the serialized form of some `GameStatus`
member. -/
def isGameStatusVal (v : Option JVal) : Bool :=
  match v with
  | some (.str s) =>
      s == "new" || s == "ongoing" || s == "finished" || s == "abandoned"
  | _ => false

/-- A concrete stand-in for the host `Date` constructor, used only to
instantiate theorems at concrete inputs: it recognises one ISO 8601
string, accepts numeric timestamps, and yields the Invalid Date
sentinel otherwise (in particular on `undefined`), as ECMAScript
prescribes. -/
def demoNewDate : Option JVal → JSDate
  | some (.str s) => if s = "2024-01-01T00:00:00Z" then .valid 1704067200000 else .invalid
  | some (.num n) => .valid n
  | _ => .invalid

/-- The empty payload: a plain object carrying none of the eight
properties, so every access yields `undefined`. -/
def emptyPayload : Payload :=
  ⟨none, none, none, none, none, none, none, none⟩

/-- A payload whose `status` is the serialized form of the given
member and whose other fields are absent. -/
def statusPayload (st : GameStatus) : Payload :=
  ⟨none, none, some (.str st.serialized), none, none, none, none, none⟩

/-- A concrete constructed game used to instantiate theorems. -/
def demoGame : Game :=
  Game.ofPayload demoNewDate emptyPayload

/-- A payload whose `status` is the differently-cased string `"NEW"`. -/
def statusUpperPayload : Payload :=
  ⟨none, none, some (.str "NEW"), none, none, none, none, none⟩

/-- A payload whose `status` is a string outside the enumeration. -/
def bogusStatusPayload : Payload :=
  ⟨some (.num 1), some (.str "Quiz Night"), some (.str "bogus"),
   none, none, none, none, none⟩

/-- A payload with a parsable date in both date fields. -/
def goodDatesPayload : Payload :=
  ⟨none, none, none, none,
   some (.str "2024-01-01T00:00:00Z"), some (.str "2024-01-01T00:00:00Z"),
   none, none⟩

/-- A payload with `created_on` absent and an unparsable `last_active`. -/
def badDatesPayload : Payload :=
  ⟨none, none, none, none, none, some (.str "bad-date"), none, none⟩

/-- A payload with an unparsable `created_on` and a parsable
`last_active` (the mixed case of the spec's third scenario). -/
def mixedDatesPayload : Payload :=
  ⟨none, none, none, none, some (.str "bad-date"),
   some (.str "2024-01-01T00:00:00Z"), none, none⟩

/-- C1: `isPlayable()` returns true iff the stored `status` is the
serialized form of `GameStatus.NEW` (the string `'new'`), and returns
false whenever the status is the serialized form of `ONGOING`,
`FINISHED` or `ABANDONED`. -/
theorem game_isPlayable_iff_status_new (newDate : Option JVal → JSDate) (info : Payload) :
    ((Game.ofPayload newDate info).isPlayable = true ↔
      info.status = some (JVal.str (GameStatus.serialized GameStatus.NEW))) ∧
    (∀ st : GameStatus, st ≠ GameStatus.NEW →
      info.status = some (JVal.str (GameStatus.serialized st)) →
      (Game.ofPayload newDate info).isPlayable = false) := by
  constructor
  · show strictEqStr info.status "new" = true ↔ _
    cases info.status with
    | none => simp [strictEqStr]
    | some v =>
      cases v with
      | str t => simp [strictEqStr, GameStatus.serialized]
      | num n => simp [strictEqStr]
      | bool b => simp [strictEqStr]
      | arr l => simp [strictEqStr]
      | obj o => simp [strictEqStr]
  · intro st hne hs
    show strictEqStr info.status "new" = false
    rw [hs]
    cases st with
    | NEW => exact absurd rfl hne
    | ONGOING => rfl
    | FINISHED => rfl
    | ABANDONED => rfl

/-- Witness for C1 at concrete payloads: status `'new'` is playable,
status `'ongoing'` is not. -/
theorem game_isPlayable_iff_status_new_witness :
    (Game.ofPayload demoNewDate (statusPayload GameStatus.NEW)).isPlayable = true ∧
    (Game.ofPayload demoNewDate (statusPayload GameStatus.ONGOING)).isPlayable = false :=
  ⟨(game_isPlayable_iff_status_new demoNewDate (statusPayload GameStatus.NEW)).1.mpr rfl,
   (game_isPlayable_iff_status_new demoNewDate (statusPayload GameStatus.ONGOING)).2
     GameStatus.ONGOING (by decide) rfl⟩

/-- C2: the constructor copies `id`, `name`, `status`, `n_players`
(remapped to `nPlayers`), `rounds` and `scoreboard` from the payload
unchanged. -/
theorem game_construct_copies_fields (newDate : Option JVal → JSDate) (info : Payload) :
    (Game.ofPayload newDate info).id = info.id ∧
    (Game.ofPayload newDate info).name = info.name ∧
    (Game.ofPayload newDate info).status = info.status ∧
    (Game.ofPayload newDate info).nPlayers = info.n_players ∧
    (Game.ofPayload newDate info).rounds = info.rounds ∧
    (Game.ofPayload newDate info).scoreboard = info.scoreboard :=
  ⟨rfl, rfl, rfl, rfl, rfl, rfl⟩

/-- C3 counterexample: a payload whose `status` is the string
`'bogus'` constructs a `Game` whose `status` is not the serialized
form of any `GameStatus` member, so the constructed status is not
always a member of the enumeration. -/
theorem game_status_outside_enum_counterexample :
    (Game.ofPayload demoNewDate bogusStatusPayload).status = some (JVal.str "bogus") ∧
    isGameStatusVal (Game.ofPayload demoNewDate bogusStatusPayload).status = false :=
  ⟨rfl, rfl⟩

/-- C3 amended: the constructed `status` equals the payload's `status`
field verbatim, and hence lies in the `GameStatus` enumeration exactly
when the payload's `status` field is the serialized form of a member;
no check coerces it into the enumeration. -/
theorem game_status_enum_iff_payload (newDate : Option JVal → JSDate) (info : Payload) :
    (Game.ofPayload newDate info).status = info.status ∧
    isGameStatusVal (Game.ofPayload newDate info).status = isGameStatusVal info.status :=
  ⟨rfl, rfl⟩

/-- C4: when both date fields hold strings that the host date-parsing
rule maps to valid timestamps, the constructed `createdOn` and
`lastActive` are exactly those parsed timestamps. -/
theorem game_dates_parse (newDate : Option JVal → JSDate) (info : Payload)
    (s t : String) (ms mt : Int)
    (hc : info.created_on = some (JVal.str s))
    (hl : info.last_active = some (JVal.str t))
    (hcs : newDate (some (JVal.str s)) = JSDate.valid ms)
    (hls : newDate (some (JVal.str t)) = JSDate.valid mt) :
    (Game.ofPayload newDate info).createdOn = JSDate.valid ms ∧
    (Game.ofPayload newDate info).lastActive = JSDate.valid mt := by
  constructor
  · show newDate info.created_on = _
    rw [hc, hcs]
  · show newDate info.last_active = _
    rw [hl, hls]

/-- Witness for C4 at a payload carrying a parsable ISO 8601 string in
both date fields. -/
theorem game_dates_parse_witness :
    (Game.ofPayload demoNewDate goodDatesPayload).createdOn = JSDate.valid 1704067200000 ∧
    (Game.ofPayload demoNewDate goodDatesPayload).lastActive = JSDate.valid 1704067200000 :=
  game_dates_parse demoNewDate goodDatesPayload
    "2024-01-01T00:00:00Z" "2024-01-01T00:00:00Z" 1704067200000 1704067200000
    rfl rfl (by decide) (by decide)

/-- C5: construction never signals an error — `Game.ofPayload` is a
total function — and when a date field is absent (so the host `Date`
constructor receives `undefined` and yields Invalid Date) or holds an
unparsable string, the corresponding timestamp field is the
Invalid Date sentinel. -/
theorem game_dates_invalid_sentinel (newDate : Option JVal → JSDate) (info : Payload)
    (hund : newDate none = JSDate.invalid) :
    ((info.created_on = none ∨
        ∃ s, info.created_on = some (JVal.str s) ∧
          newDate (some (JVal.str s)) = JSDate.invalid) →
      (Game.ofPayload newDate info).createdOn = JSDate.invalid) ∧
    ((info.last_active = none ∨
        ∃ s, info.last_active = some (JVal.str s) ∧
          newDate (some (JVal.str s)) = JSDate.invalid) →
      (Game.ofPayload newDate info).lastActive = JSDate.invalid) := by
  constructor
  · intro hc
    show newDate info.created_on = _
    rcases hc with h | ⟨s, hs, hv⟩
    · rw [h, hund]
    · rw [hs, hv]
  · intro hl
    show newDate info.last_active = _
    rcases hl with h | ⟨s, hs, hv⟩
    · rw [h, hund]
    · rw [hs, hv]

/-- Witness for C5 at the mixed payload of the spec's third scenario:
`created_on` is an unparsable string and becomes the Invalid Date
sentinel while `last_active` parses to a valid timestamp; a second
application covers an absent date field. -/
theorem game_dates_invalid_sentinel_witness :
    ((Game.ofPayload demoNewDate mixedDatesPayload).createdOn = JSDate.invalid ∧
      (Game.ofPayload demoNewDate mixedDatesPayload).lastActive = JSDate.valid 1704067200000) ∧
    (Game.ofPayload demoNewDate badDatesPayload).createdOn = JSDate.invalid :=
  ⟨⟨(game_dates_invalid_sentinel demoNewDate mixedDatesPayload rfl).1
      (Or.inr ⟨"bad-date", rfl, by decide⟩),
    by decide⟩,
   (game_dates_invalid_sentinel demoNewDate badDatesPayload rfl).1 (Or.inl rfl)⟩

/-- C6: a payload with `n_players` absent constructs without error (the
constructor is a total function) and the constructed `nPlayers` is the
absent/undefined value. -/
theorem game_missing_nPlayers (newDate : Option JVal → JSDate) (info : Payload)
    (h : info.n_players = none) :
    (Game.ofPayload newDate info).nPlayers = none := by
  show info.n_players = none
  exact h

/-- Witness for C6 at the empty payload. -/
theorem game_missing_nPlayers_witness :
    (Game.ofPayload demoNewDate emptyPayload).nPlayers = none :=
  game_missing_nPlayers demoNewDate emptyPayload rfl

/-- C7: construction is deterministic — any two games constructed from
the same payload agree on all eight observable fields. -/
theorem game_construct_deterministic (newDate : Option JVal → JSDate) (info : Payload)
    (g1 g2 : Game)
    (h1 : g1 = Game.ofPayload newDate info)
    (h2 : g2 = Game.ofPayload newDate info) :
    g1.id = g2.id ∧ g1.name = g2.name ∧ g1.status = g2.status ∧
    g1.nPlayers = g2.nPlayers ∧ g1.createdOn = g2.createdOn ∧
    g1.lastActive = g2.lastActive ∧ g1.rounds = g2.rounds ∧
    g1.scoreboard = g2.scoreboard := by
  subst h1
  subst h2
  exact ⟨rfl, rfl, rfl, rfl, rfl, rfl, rfl, rfl⟩

/-- Witness for C7 at a concrete payload. -/
theorem game_construct_deterministic_witness :
    demoGame.id = demoGame.id ∧ demoGame.name = demoGame.name ∧
    demoGame.status = demoGame.status ∧ demoGame.nPlayers = demoGame.nPlayers ∧
    demoGame.createdOn = demoGame.createdOn ∧ demoGame.lastActive = demoGame.lastActive ∧
    demoGame.rounds = demoGame.rounds ∧ demoGame.scoreboard = demoGame.scoreboard :=
  game_construct_deterministic demoNewDate emptyPayload demoGame demoGame rfl rfl

/-- C8: `isPlayable()` is pure — in the state-passing translation of
the method it returns the receiver unchanged alongside the boolean it
computes, and that boolean agrees with the functional `isPlayable`;
the component has no other method, so no operation mutates a
constructed `Game`. -/
theorem game_isPlayable_pure (g : Game) :
    (Game.isPlayableSt g).2 = g ∧ (Game.isPlayableSt g).1 = Game.isPlayable g :=
  ⟨rfl, rfl⟩

/-- C9: `isPlayable()` uses case-sensitive strict string equality
against `'new'`: for any stored `status` other than the exact string
`'new'` — including differently-cased strings, non-string values and
an absent status — it returns false. -/
theorem game_isPlayable_strict_eq (newDate : Option JVal → JSDate) (info : Payload)
    (h : info.status ≠ some (JVal.str "new")) :
    (Game.ofPayload newDate info).isPlayable = false := by
  show strictEqStr info.status "new" = false
  cases hv : info.status with
  | none => rfl
  | some v =>
    cases v with
    | str t =>
      have ht : t ≠ "new" := by
        intro he
        rw [hv, he] at h
        exact h rfl
      show (t == "new") = false
      simp [ht]
    | num n => rfl
    | bool b => rfl
    | arr l => rfl
    | obj o => rfl

/-- Witness for C9 at a payload whose status is the differently-cased
string `'NEW'`. -/
theorem game_isPlayable_strict_eq_witness :
    (Game.ofPayload demoNewDate statusUpperPayload).isPlayable = false :=
  game_isPlayable_strict_eq demoNewDate statusUpperPayload
    (by intro hc; simp [statusUpperPayload] at hc)

/-- C10: the constructor is total over object payloads — modelled by
`Game.ofPayload` being a total function, so every payload, the empty
object included, yields a constructed `Game` — and on the empty
payload every copied field is the absent/undefined value while both
date fields are the Invalid Date sentinel (given the ECMAScript fact
that the `Date` constructor maps `undefined` to Invalid Date). -/
theorem game_construct_total_empty (newDate : Option JVal → JSDate)
    (hund : newDate none = JSDate.invalid) :
    (∀ info : Payload, ∃ g : Game, Game.ofPayload newDate info = g) ∧
    (Game.ofPayload newDate emptyPayload).id = none ∧
    (Game.ofPayload newDate emptyPayload).name = none ∧
    (Game.ofPayload newDate emptyPayload).status = none ∧
    (Game.ofPayload newDate emptyPayload).nPlayers = none ∧
    (Game.ofPayload newDate emptyPayload).rounds = none ∧
    (Game.ofPayload newDate emptyPayload).scoreboard = none ∧
    (Game.ofPayload newDate emptyPayload).createdOn = JSDate.invalid ∧
    (Game.ofPayload newDate emptyPayload).lastActive = JSDate.invalid := by
  refine ⟨fun info => ⟨Game.ofPayload newDate info, rfl⟩,
    rfl, rfl, rfl, rfl, rfl, rfl, ?_, ?_⟩
  · show newDate none = _
    exact hund
  · show newDate none = _
    exact hund

/-- Witness for C10 with a concrete host date function. -/
theorem game_construct_total_empty_witness :
    (∀ info : Payload, ∃ g : Game, Game.ofPayload demoNewDate info = g) ∧
    (Game.ofPayload demoNewDate emptyPayload).id = none ∧
    (Game.ofPayload demoNewDate emptyPayload).name = none ∧
    (Game.ofPayload demoNewDate emptyPayload).status = none ∧
    (Game.ofPayload demoNewDate emptyPayload).nPlayers = none ∧
    (Game.ofPayload demoNewDate emptyPayload).rounds = none ∧
    (Game.ofPayload demoNewDate emptyPayload).scoreboard = none ∧
    (Game.ofPayload demoNewDate emptyPayload).createdOn = JSDate.invalid ∧
    (Game.ofPayload demoNewDate emptyPayload).lastActive = JSDate.invalid :=
  game_construct_total_empty demoNewDate rfl
